import Mathlib

/-!
Verification of the SMQTK-Core configuration module
(`smqtk_core/configuration.py` and its test module
`tests/test_configuration.py`).

Python dictionaries are modelled as association lists with
update-in-place insertion (last write wins on the value, first insertion
fixes the position), which matches CPython dict semantics for the
string-keyed dictionaries used throughout the module.  JSON-compliant
values are modelled by the inductive type `Value`; python `float` values
occur only as opaque payloads that are stored and compared, never
computed with, so they are carried as exact rationals.
-/

set_option autoImplicit false

namespace SmqtkCore

/-- JSON-compliant python values as used in configuration dictionaries.
The extra constructor `objT1` models an instance of the test class `T1`
stored in a dictionary slot, which happens inside `T2.from_config` in
`tests/test_configuration.py` when the nested child configuration is
replaced by a constructed `T1` object before constructor expansion. -/
inductive Value where
  | null
  | bool (b : Bool)
  | int (n : Int)
  | float (q : Rat)
  | str (s : String)
  | list (xs : List Value)
  | dict (entries : List (String × Value))
  | objT1 (foo : Value) (bar : Value)

/-- A python `dict` with string keys, as an association list. -/
abbrev Entries := List (String × Value)

/-- Lookup in a python dict: the value stored under key `k`. -/
def alistLookup {α : Type} : List (String × α) → String → Option α
  | [], _ => none
  | (k', v) :: rest, k => if k = k' then some v else alistLookup rest k

/-- `d[k] = v` on a python dict: update the existing entry in place, or
append a new entry at the end. -/
def alistInsert {α : Type} : List (String × α) → String → α → List (String × α)
  | [], k, v => [(k, v)]
  | (k', v') :: rest, k, v =>
      if k = k' then (k', v) :: rest else (k', v') :: alistInsert rest k v

/-- `list(d.keys())` on a python dict. -/
def alistKeys {α : Type} (d : List (String × α)) : List String :=
  d.map Prod.fst

/-- The five parameter kinds of `inspect.Parameter`. -/
inductive PKind where
  | posOnly
  | posOrKw
  | varPos
  | kwOnly
  | varKw
deriving DecidableEq, Repr

/-- One declared parameter of a python callable: its name, its
`inspect` kind, and its declared default (`none` = `Parameter.empty`,
i.e. no default declared). -/
structure PyParam where
  name : String
  kind : PKind
  default : Option Value

/-- A python class as far as the configuration module observes it: its
defining module, its name, its constructor signature (including the
`self` parameter, as `inspect.signature(cls.__init__)` reports it),
whether the class (or an ancestor other than `object`) explicitly
defines `__init__`, and whether it subclasses `Configurable`. -/
structure PyClass where
  module : String
  name : String
  params : List PyParam
  hasInit : Bool
  isConfigurable : Bool

/-- The parameter kinds retained by `_param_map_func`: everything that
is not `*args` / `**kwargs` variadic. -/
def keepKind : PKind → Bool
  | .posOnly => true
  | .posOrKw => true
  | .kwOnly => true
  | .varPos => false
  | .varKw => false

/-- `_param_map_func`: map a signature's parameter names to their
declared defaults, skipping `self` and variadic parameters, and mapping
an absent default to `None`. -/
def param_map_func (ps : List PyParam) : Entries :=
  ps.foldl
    (fun pmap p =>
      if p.name = "self" then pmap
      else if keepKind p.kind then
        alistInsert pmap p.name (p.default.getD Value.null)
      else pmap)
    []

/-- `Configurable.get_default_config`: introspect the constructor when
one is explicitly defined, otherwise return the empty dict. -/
def get_default_config (cls : PyClass) : Entries :=
  if cls.hasInit then param_map_func cls.params else []

/-- `_type_to_key`: the configuration key of a class,
`f"{t.__module__}.{t.__name__}"`. -/
def type_to_key (t : PyClass) : String :=
  t.module ++ "." ++ t.name

mutual

/-- Modelled from the spec: the dictionary-merge collaborator
`smqtk_core.dict.merge_dict` (module `smqtk_core/dict.py` is not part of
the sources at hand, only its import site is).  Per the spec it
deep-merges two mappings with override semantics — the second argument's
keys take precedence over the first's on conflict, recursing into nested
mappings — and mutates neither input (here inherent: it is a pure
function of association lists). -/
def merge_dict (a : Entries) : Entries → Entries
  | [] => a
  | (k, v) :: rest =>
      merge_dict (alistInsert a k (merge_val (alistLookup a k) v)) rest

/-- The value `merge_dict` stores for one key of its second argument:
the recursive merge when both the present and the incoming value are
dictionaries, the incoming value otherwise. -/
def merge_val (old : Option Value) : Value → Value
  | Value.dict db =>
      match old with
      | some (Value.dict da) => Value.dict (merge_dict da db)
      | _ => Value.dict db
  | v => v

end

/-- The spec's override semantics for one key of a merge, stated from
the spec's words: a key present in the second mapping takes precedence,
recursing when both mappings hold a nested mapping there; a key only in
the first mapping keeps its value. -/
def merge_precedence_spec : Option Value → Option Value → Option Value
  | some (Value.dict db), some (Value.dict da) =>
      some (Value.dict (merge_dict da db))
  | some vb, _ => some vb
  | none, va => va

/-- A parameter that `_param_map_func` retains: named (not `self`) and
non-variadic. -/
def kept (p : PyParam) : Bool :=
  p.name != "self" && keepKind p.kind

/-- The keyword-argument dictionary that the base
`Configurable.from_config` expands into the constructor call
`cls(**config_dict)`: the input merged on top of the class defaults when
`merge_default` is true, the input unchanged otherwise. -/
def from_config_kwargs (cls : PyClass) (config_dict : Entries)
    (merge_default : Bool) : Entries :=
  if merge_default then merge_dict (get_default_config cls) config_dict
  else config_dict

/-- A python value visible to the helper functions: either an instance
of some class (carrying its `get_config()` dictionary) or a class
object itself. -/
inductive PyObj where
  | inst (cls : PyClass) (config : Entries)
  | typ (cls : PyClass)

/-- `make_default_config`'s loop body, processing the iterable of
candidate types in order: each element must be a class subclassing
`Configurable` (otherwise the `assert` fires, reported here as the
offending element), and contributes the entry
`d[_type_to_key(cls)] = cls.get_default_config()`. -/
def make_default_config_go : Entries → List PyObj → Except PyObj Entries
  | d, [] => .ok d
  | d, x :: rest =>
      match x with
      | .typ cls =>
          if cls.isConfigurable then
            make_default_config_go
              (alistInsert d (type_to_key cls) (Value.dict (get_default_config cls)))
              rest
          else .error x
      | .inst _ _ => .error x

/-- `make_default_config`: start from `{"type": None}` and add one
default-configuration block per candidate type. -/
def make_default_config (configurable_iter : List PyObj) : Except PyObj Entries :=
  make_default_config_go [("type", Value.null)] configurable_iter

/-- `cls_conf_to_config_dict`: arrange a class key and its bare
configuration into the standard dictionary
`{"type": cls_key, cls_key: conf}`. -/
def cls_conf_to_config_dict (cls : PyClass) (conf : Entries) : Entries :=
  alistInsert (alistInsert [] "type" (Value.str (type_to_key cls)))
    (type_to_key cls) (Value.dict conf)

/-- The `ValueError` message raised by `to_config_dict` on an invalid
argument. -/
def to_config_dict_error : String :=
  "c_inst must be an instance and its type must subclass from Configurable."

/-- `to_config_dict`: reject a class object (`isinstance(c_inst, type)`)
or an instance whose class does not subclass `Configurable`, otherwise
wrap the instance's `get_config()` with `cls_conf_to_config_dict`. -/
def to_config_dict (c_inst : PyObj) : Except String Entries :=
  match c_inst with
  | .typ _ => .error to_config_dict_error
  | .inst cls config =>
      if ¬ cls.isConfigurable then .error to_config_dict_error
      else .ok (cls_conf_to_config_dict cls config)

/-- The four `ValueError` cases of `cls_conf_from_config_dict`, each
carrying the option context its message reports. -/
inductive CfgError where
  | missingType
  | unsetType (options : List String)
  | noConfigBlock (name : Value) (options : List String)
  | unknownImpl (name : String) (options : List String)

/-- The per-call lookup map
`dict(map(lambda t: (_type_to_key(t), t), type_iter))`: a python dict
built by inserting each candidate's key in iteration order, so a later
candidate with the same key overwrites the earlier one's value. -/
def buildTypeMap (type_iter : List PyClass) : List (String × PyClass) :=
  type_iter.foldl (fun m t => alistInsert m (type_to_key t) t) []

/-- `cls_conf_from_config_dict`: resolve the implementation named by
`config["type"]` among the candidates, with the source's four ordered
failure cases.  A non-string, non-`None` type value falls into the
no-config-block case because python's `x in set_of_string_keys` is false
for it. -/
def cls_conf_from_config_dict (config : Entries) (type_iter : List PyClass) :
    Except CfgError (PyClass × Value) :=
  match alistLookup config "type" with
  | none => .error .missingType
  | some conf_type_name =>
      let type_map := buildTypeMap type_iter
      let conf_type_options := (alistKeys config).filter (fun k => k ≠ "type")
      match conf_type_name with
      | Value.null => .error (.unsetType conf_type_options)
      | Value.str s =>
          if s ∈ conf_type_options then
            match alistLookup type_map s with
            | some cls => .ok (cls, (alistLookup config s).getD Value.null)
            | none => .error (.unknownImpl s (alistKeys type_map))
          else .error (.noConfigBlock (Value.str s) conf_type_options)
      | v => .error (.noConfigBlock v conf_type_options)

/-- Errors of `from_config_dict`: a resolution `ValueError` forwarded
from `cls_conf_from_config_dict`, or the `AssertionError` (carrying
`cls.__name__`) when the resolved class does not descend from
`Configurable`. -/
inductive FcdError where
  | resolution (e : CfgError)
  | assertion (clsName : String)

/-- A call `cls.from_config(cls_conf, *args)` as `from_config_dict`
delegates it: the resolved class, the sub-configuration block, and the
extra positional arguments forwarded after it. -/
structure ConstructCall where
  cls : PyClass
  conf : Value
  args : List Value

/-- `from_config_dict`, instrumented: the first component is the
returned value (the delegated `from_config` call, or the error), the
second is the list of `from_config` invocations performed, in order.
The source has a single call site, in the final `return` after the
`assert`. -/
def from_config_dict (config : Entries) (type_iter : List PyClass)
    (args : List Value) : Except FcdError ConstructCall × List ConstructCall :=
  match cls_conf_from_config_dict config type_iter with
  | .error e => (.error (.resolution e), [])
  | .ok (cls, cls_conf) =>
      if cls.isConfigurable then
        (.ok ⟨cls, cls_conf, args⟩, [⟨cls, cls_conf, args⟩])
      else (.error (.assertion cls.name), [])

/-! ### The test module's concrete classes `T1` and `T2`

`tests/test_configuration.py` defines `T1(foo=1, bar='baz')` and the
nested `T2(child=T1(), alpha=0.0001, beta='default')` whose
`get_default_config`/`from_config` overrides handle the embedded `T1`
configuration.  They are embedded here concretely to settle the nested
round-trip property. -/

/-- `T1` as the configuration module observes it. -/
def T1_pyclass : PyClass :=
  { module := "tests.test_configuration"
    name := "T1"
    params :=
      [⟨"self", .posOrKw, none⟩,
       ⟨"foo", .posOrKw, some (Value.int 1)⟩,
       ⟨"bar", .posOrKw, some (Value.str "baz")⟩]
    hasInit := true
    isConfigurable := true }

/-- An instance of the test class `T1`. -/
structure T1 where
  foo : Value
  bar : Value

/-- `T1.get_config`. -/
def T1.get_config (x : T1) : Entries :=
  [("foo", x.foo), ("bar", x.bar)]

/-- `T1(**kwargs)`: keyword binding of the constructor.  Unexpected
keys raise `TypeError` (`none`); absent keys take their declared
defaults. -/
def T1.construct (kwargs : Entries) : Option T1 :=
  if kwargs.all (fun e => e.1 == "foo" || e.1 == "bar") then
    some ⟨(alistLookup kwargs "foo").getD (Value.int 1),
          (alistLookup kwargs "bar").getD (Value.str "baz")⟩
  else none

/-- `T1.from_config`: the inherited base behavior — merge onto the
class defaults when requested, then expand into the constructor. -/
def T1.from_config (config_dict : Entries) (merge_default : Bool := true) :
    Option T1 :=
  T1.construct (from_config_kwargs T1_pyclass config_dict merge_default)

/-- `T2` as the configuration module observes it.  The constructor
default for `child` is the instance `T1()`. -/
def T2_pyclass : PyClass :=
  { module := "tests.test_configuration"
    name := "T2"
    params :=
      [⟨"self", .posOrKw, none⟩,
       ⟨"child", .posOrKw, some (Value.objT1 (Value.int 1) (Value.str "baz"))⟩,
       ⟨"alpha", .posOrKw, some (Value.float (1 / 10000))⟩,
       ⟨"beta", .posOrKw, some (Value.str "default")⟩]
    hasInit := true
    isConfigurable := true }

/-- An instance of the test class `T2`, whose `child` is a `T1`. -/
structure T2 where
  child : T1
  alpha : Value
  beta : Value

/-- `T2.get_config`: the child contributes its own bare configuration
as a nested dictionary. -/
def T2.get_config (x : T2) : Entries :=
  [("child", Value.dict x.child.get_config), ("alpha", x.alpha), ("beta", x.beta)]

/-- `T2.get_default_config` override: take the introspected default map
and replace the `child` entry (the instance `T1()`) by that instance's
class default configuration. -/
def T2.get_default_config : Entries :=
  alistInsert (SmqtkCore.get_default_config T2_pyclass) "child"
    (Value.dict (SmqtkCore.get_default_config T1_pyclass))

/-- `T2(**kwargs)`: keyword binding of the constructor.  A `child`
value that is not a `T1` instance is rejected here; in python such a
value is accepted by the constructor and only fails later when
`get_config` calls `child.get_config()`. -/
def T2.construct (kwargs : Entries) : Option T2 :=
  if kwargs.all (fun e => e.1 == "child" || e.1 == "alpha" || e.1 == "beta") then
    match (alistLookup kwargs "child").getD
        (Value.objT1 (Value.int 1) (Value.str "baz")) with
    | Value.objT1 f b =>
        some ⟨⟨f, b⟩,
              (alistLookup kwargs "alpha").getD (Value.float (1 / 10000)),
              (alistLookup kwargs "beta").getD (Value.str "default")⟩
    | _ => none
  else none

/-- `T2.from_config` override: construct the child `T1` from its
sub-dictionary, store it back into the configuration, then delegate to
the base behavior (merging onto `T2`'s overridden default
configuration, then expanding into the constructor). -/
def T2.from_config (config : Entries) (merge_default : Bool := true) :
    Option T2 := do
  let childV ← alistLookup config "child"
  let childD ← match childV with
    | Value.dict d => some d
    | _ => none
  let child ← T1.from_config childD
  let config' := alistInsert config "child" (Value.objT1 child.foo child.bar)
  T2.construct
    (if merge_default then merge_dict T2.get_default_config config' else config')

/-- `T2.from_config` with python's caller-visible state.  The test
class performs no shallow copy of its input, so the assignment
`config["child"] = T1.from_config(config["child"])` mutates the
caller's dictionary.  This variant returns the constructed instance
together with the final state of the input dictionary (whose `"child"`
entry now holds a `T1` instance, not a bare configuration). -/
def T2.from_config_stateful (config : Entries) (merge_default : Bool := true) :
    Option (T2 × Entries) := do
  let childV ← alistLookup config "child"
  let childD ← match childV with
    | Value.dict d => some d
    | _ => none
  let child ← T1.from_config childD
  let config' := alistInsert config "child" (Value.objT1 child.foo child.bar)
  let inst ← T2.construct
    (if merge_default then merge_dict T2.get_default_config config' else config')
  some (inst, config')

/-- Whether a python object passes `make_default_config`'s assertion
`isinstance(cls, type) and issubclass(cls, Configurable)`: it must be a
class object and the class must subclass `Configurable`. -/
def conforming : PyObj → Bool
  | .typ c => c.isConfigurable
  | .inst _ _ => false

/-- The test-suite class `T(a, b, cat, *args, **kwargs)` used to check
default-configuration introspection. -/
def T_abc_star : PyClass :=
  { module := "tests.test_configuration"
    name := "T"
    params :=
      [⟨"self", .posOrKw, none⟩,
       ⟨"a", .posOrKw, none⟩,
       ⟨"b", .posOrKw, none⟩,
       ⟨"cat", .posOrKw, none⟩,
       ⟨"args", .varPos, none⟩,
       ⟨"kwargs", .varKw, none⟩]
    hasInit := true
    isConfigurable := true }

/-- The test-suite class `NotConfigurable`, a plain class that does not
subclass `Configurable`. -/
def NotConfigurable : PyClass :=
  { module := "tests.test_configuration"
    name := "NotConfigurable"
    params := [⟨"self", .posOrKw, none⟩]
    hasInit := false
    isConfigurable := false }

/-- A second class with the same defining module and name as `T1`, so
the two share one type identifier (the collision case for the per-call
lookup map). -/
def T1_shadow : PyClass :=
  { module := "tests.test_configuration"
    name := "T1"
    params := [⟨"self", .posOrKw, none⟩]
    hasInit := false
    isConfigurable := false }

/-! ### Lemmas on the dict model -/

theorem alistLookup_alistInsert {α : Type} (d : List (String × α)) (k k' : String)
    (v : α) :
    alistLookup (alistInsert d k v) k' =
      if k' = k then some v else alistLookup d k' := by
  induction d with
  | nil =>
      by_cases h : k' = k <;> simp [alistInsert, alistLookup, h]
  | cons e rest ih =>
      obtain ⟨k0, v0⟩ := e
      by_cases h0 : k = k0
      · subst h0
        by_cases h' : k' = k <;> simp [alistInsert, alistLookup, h']
      · by_cases h' : k' = k0
        · subst h'
          simp [alistInsert, alistLookup, h0, Ne.symm h0, ih]
        · simp [alistInsert, alistLookup, h0, h', ih]

theorem alistLookup_eq_none_of_not_mem {α : Type} (d : List (String × α))
    (k : String) (h : k ∉ alistKeys d) : alistLookup d k = none := by
  induction d with
  | nil => simp [alistLookup]
  | cons e rest ih =>
      obtain ⟨k0, v0⟩ := e
      simp [alistKeys] at h
      simp [alistLookup, h.1, ih (by simpa [alistKeys] using h.2)]

theorem alistInsert_of_not_mem {α : Type} (d : List (String × α)) (k : String)
    (v : α) (h : k ∉ alistKeys d) : alistInsert d k v = d ++ [(k, v)] := by
  induction d with
  | nil => simp [alistInsert]
  | cons e rest ih =>
      obtain ⟨k0, v0⟩ := e
      simp [alistKeys] at h
      simp [alistInsert, h.1, ih (by simpa [alistKeys] using h.2)]

/-- A type key always contains a `.` separator, so it can never collide
with the reserved `"type"` key. -/
theorem type_to_key_ne_type (t : PyClass) : type_to_key t ≠ "type" := by
  intro h
  have hd : ('.' : Char) ∈ (type_to_key t).data := by
    simp [type_to_key, String.data_append]
  rw [h] at hd
  simp at hd

theorem merge_dict_nil (a : Entries) : merge_dict a [] = a := rfl

theorem merge_dict_cons (a : Entries) (k : String) (v : Value) (rest : Entries) :
    merge_dict a ((k, v) :: rest) =
      merge_dict (alistInsert a k (merge_val (alistLookup a k) v)) rest := rfl

theorem merge_dict_lookup_of_not_mem (b : Entries) (a : Entries) (k : String)
    (h : k ∉ alistKeys b) : alistLookup (merge_dict a b) k = alistLookup a k := by
  induction b generalizing a with
  | nil => rw [merge_dict_nil]
  | cons e rest ih =>
      obtain ⟨k0, v0⟩ := e
      simp only [alistKeys, List.map_cons, List.mem_cons, not_or] at h
      rw [merge_dict_cons, ih _ (by simpa [alistKeys] using h.2),
        alistLookup_alistInsert]
      simp [h.1]

theorem merge_precedence_spec_some (old : Option Value) (v : Value) :
    merge_precedence_spec (some v) old = some (merge_val old v) := by
  cases v <;> rcases old with _ | va <;>
    first
      | (cases va <;> simp [merge_precedence_spec, merge_val])
      | simp [merge_precedence_spec, merge_val]

theorem merge_dict_alistLookup (b : Entries) (a : Entries) (k : String)
    (h : (alistKeys b).Nodup) :
    alistLookup (merge_dict a b) k =
      merge_precedence_spec (alistLookup b k) (alistLookup a k) := by
  induction b generalizing a with
  | nil => simp [merge_dict_nil, merge_precedence_spec, alistLookup]
  | cons e rest ih =>
      obtain ⟨k0, v0⟩ := e
      simp only [alistKeys, List.map_cons, List.nodup_cons] at h
      by_cases hk : k = k0
      · subst hk
        rw [merge_dict_cons,
          merge_dict_lookup_of_not_mem rest _ k (by simpa [alistKeys] using h.1),
          alistLookup_alistInsert]
        simp [alistLookup, merge_precedence_spec_some]
      · rw [merge_dict_cons, ih _ (by simpa [alistKeys] using h.2),
          alistLookup_alistInsert]
        simp [alistLookup, hk]

theorem alistKeys_append {α : Type} (a b : List (String × α)) :
    alistKeys (a ++ b) = alistKeys a ++ alistKeys b :=
  List.map_append _ a b

theorem param_map_func_go (ps : List PyParam) (acc : Entries)
    (hnd : ((ps.filter kept).map PyParam.name).Nodup)
    (hfresh : ∀ p ∈ ps, kept p = true → p.name ∉ alistKeys acc) :
    ps.foldl
      (fun pmap p =>
        if p.name = "self" then pmap
        else if keepKind p.kind then
          alistInsert pmap p.name (p.default.getD Value.null)
        else pmap)
      acc =
      acc ++ (ps.filter kept).map (fun p => (p.name, p.default.getD Value.null)) := by
  induction ps generalizing acc with
  | nil => simp
  | cons p rest ih =>
      by_cases hself : p.name = "self"
      · have hk : ¬ (kept p = true) := by simp [kept, hself]
        rw [List.foldl_cons, if_pos hself, List.filter_cons_of_neg hk]
        exact ih acc (by rwa [List.filter_cons_of_neg hk] at hnd)
          (fun q hq => hfresh q (List.mem_cons_of_mem _ hq))
      · by_cases hkind : keepKind p.kind = true
        · have hk : kept p = true := by simp [kept, hself, hkind]
          have hfr : p.name ∉ alistKeys acc :=
            hfresh p (List.mem_cons_self _ _) hk
          rw [List.foldl_cons, if_neg hself, if_pos hkind,
            alistInsert_of_not_mem _ _ _ hfr,
            List.filter_cons_of_pos hk, List.map_cons]
          rw [List.filter_cons_of_pos hk, List.map_cons] at hnd
          rw [ih (acc ++ [(p.name, p.default.getD Value.null)])]
          · simp
          · exact hnd.of_cons
          · intro q hq hkq
            have hqname : q.name ∈ (rest.filter kept).map PyParam.name :=
              List.mem_map_of_mem _ (List.mem_filter.mpr ⟨hq, hkq⟩)
            have hne : q.name ≠ p.name := by
              intro he
              exact (List.nodup_cons.mp hnd).1 (he ▸ hqname)
            rw [alistKeys_append]
            simp only [List.mem_append, alistKeys, List.map_cons, List.map_nil,
              List.mem_singleton]
            rintro (hc | hc)
            · exact hfresh q (List.mem_cons_of_mem _ hq) hkq hc
            · exact hne hc
        · have hk : ¬ (kept p = true) := by simp [kept, hkind]
          rw [List.foldl_cons, if_neg hself, if_neg hkind,
            List.filter_cons_of_neg hk]
          exact ih acc (by rwa [List.filter_cons_of_neg hk] at hnd)
            (fun q hq => hfresh q (List.mem_cons_of_mem _ hq))

theorem make_default_config_go_ok (cs : List PyClass) (acc : Entries)
    (hconf : ∀ c ∈ cs, c.isConfigurable = true)
    (hfresh : ∀ c ∈ cs, type_to_key c ∉ alistKeys acc)
    (hnd : (cs.map type_to_key).Nodup) :
    make_default_config_go acc (cs.map PyObj.typ) =
      .ok (acc ++ cs.map fun c => (type_to_key c, Value.dict (get_default_config c))) := by
  induction cs generalizing acc with
  | nil => simp [make_default_config_go]
  | cons c rest ih =>
      rw [List.map_cons, make_default_config_go]
      rw [if_pos (hconf c (List.mem_cons_self _ _)),
        alistInsert_of_not_mem _ _ _ (hfresh c (List.mem_cons_self _ _))]
      rw [List.map_cons, List.nodup_cons] at hnd
      rw [ih (acc ++ [(type_to_key c, Value.dict (get_default_config c))])
        (fun q hq => hconf q (List.mem_cons_of_mem _ hq))]
      · simp
      · intro q hq
        rw [alistKeys_append]
        simp only [List.mem_append, alistKeys, List.map_cons, List.map_nil,
          List.mem_singleton]
        rintro (hc | hc)
        · exact hfresh q (List.mem_cons_of_mem _ hq) hc
        · exact hnd.1 (hc ▸ List.mem_map_of_mem _ hq)
      · exact hnd.2

theorem buildTypeMap_go (l : List PyClass) (m : List (String × PyClass))
    (k : String) :
    alistLookup (l.foldl (fun m t => alistInsert m (type_to_key t) t) m) k =
      (l.reverse.find? (fun t => type_to_key t == k)).orElse
        (fun _ => alistLookup m k) := by
  induction l generalizing m with
  | nil => simp
  | cons t rest ih =>
      rw [List.foldl_cons, ih, List.reverse_cons, List.find?_append]
      rcases h : rest.reverse.find? (fun t => type_to_key t == k) with _ | c
      · rw [alistLookup_alistInsert]
        by_cases hk : type_to_key t = k
        · simp [List.find?, hk, Option.orElse]
        · have hb : (type_to_key t == k) = false := beq_eq_false_iff_ne.mpr hk
          simp [List.find?, hb, Ne.symm hk, Option.orElse]
      · simp [Option.orElse]

/-- `alistLookup` over the per-call type lookup map: the value bound to
key `k` is the *last* candidate in iteration order whose type key is
`k`. -/
theorem buildTypeMap_lookup (l : List PyClass) (k : String) :
    alistLookup (buildTypeMap l) k =
      l.reverse.find? (fun t => type_to_key t == k) := by
  rw [buildTypeMap, buildTypeMap_go]
  rcases h : l.reverse.find? (fun t => type_to_key t == k) with _ | c <;>
    simp [Option.orElse, alistLookup]

/-! ### Claim theorems -/

/-- C3: `get_default_config` returns exactly one key per named,
non-variadic constructor parameter (excluding `self`), in declaration
order, the key being the parameter name and the value the declared
default if present, else `None`; variadic catch-all parameters
contribute no keys; and a class declaring no explicit constructor
yields the empty mapping.  The hypothesis that declared parameter names
are distinct is guaranteed by python for any real signature. -/
theorem get_default_config_spec (cls : PyClass)
    (hnd : ((cls.params.filter kept).map PyParam.name).Nodup) :
    get_default_config cls =
      if cls.hasInit then
        (cls.params.filter kept).map
          (fun p => (p.name, p.default.getD Value.null))
      else [] := by
  by_cases h : cls.hasInit = true
  · rw [get_default_config, if_pos h, if_pos h, param_map_func,
      param_map_func_go cls.params [] hnd (by intro p _ _; simp [alistKeys])]
    simp
  · rw [get_default_config, if_neg h, if_neg h]

/-- Witness for C3 at the test-suite signature
`(self, a, b, cat, *args, **kwargs)`. -/
theorem get_default_config_spec_witness :
    get_default_config T_abc_star =
      [("a", Value.null), ("b", Value.null), ("cat", Value.null)] := by
  rw [get_default_config_spec T_abc_star (by decide)]
  rfl

/-- C5: `make_default_config` on an iterable of Configurable-conforming
classes returns a dictionary whose `"type"` key is `None` — also when
exactly one candidate is given — with exactly one further entry per
candidate, keyed by the candidate's type identifier and valued by its
default configuration.  Distinctness of the identifiers is the spec's
stated precondition on candidate sets. -/
theorem make_default_config_spec (cs : List PyClass)
    (hconf : ∀ c ∈ cs, c.isConfigurable = true)
    (hnd : (cs.map type_to_key).Nodup) :
    make_default_config (cs.map PyObj.typ) =
      .ok (("type", Value.null) ::
        cs.map fun c => (type_to_key c, Value.dict (get_default_config c))) := by
  rw [make_default_config, make_default_config_go_ok cs _ hconf ?_ hnd]
  · rfl
  · intro c _
    simp only [alistKeys, List.map_cons, List.map_nil, List.mem_singleton]
    exact type_to_key_ne_type c

/-- Witness for C5 with the single candidate `T1` (the `"type"` key
stays `None` even for exactly one choice). -/
theorem make_default_config_spec_witness :
    make_default_config [PyObj.typ T1_pyclass] =
      .ok [("type", Value.null),
           ("tests.test_configuration.T1",
            Value.dict [("foo", Value.int 1), ("bar", Value.str "baz")])] := by
  have h := make_default_config_spec [T1_pyclass] (by decide) (by decide)
  simpa using h

/-- Helper for C9: the loop of `make_default_config` errors on the
first non-conforming element, whatever dictionary has been accumulated
so far. -/
theorem make_default_config_go_error (pre : List PyObj) (x : PyObj)
    (post : List PyObj) (acc : Entries)
    (hpre : ∀ y ∈ pre, conforming y = true)
    (hx : conforming x = false) :
    make_default_config_go acc (pre ++ x :: post) = .error x := by
  induction pre generalizing acc with
  | nil =>
      cases x with
      | typ c =>
          simp only [conforming] at hx
          simp [make_default_config_go, hx]
      | inst c cfg => simp [make_default_config_go]
  | cons y rest ih =>
      cases y with
      | typ c =>
          have hc := hpre (.typ c) (List.mem_cons_self _ _)
          simp only [conforming] at hc
          simp only [List.cons_append, make_default_config_go, hc, if_true]
          exact ih _ (fun q hq => hpre q (List.mem_cons_of_mem _ hq))
      | inst c cfg =>
          have hc := hpre (.inst c cfg) (List.mem_cons_self _ _)
          simp [conforming] at hc

/-- C9: `make_default_config` validates its input — an iterable whose
first offending element is not a class, or is a class not subclassing
`Configurable`, makes it fail with the assertion identifying that
element instead of silently including or skipping it. -/
theorem make_default_config_validates (pre : List PyObj) (x : PyObj)
    (post : List PyObj)
    (hpre : ∀ y ∈ pre, conforming y = true)
    (hx : conforming x = false) :
    make_default_config (pre ++ x :: post) = .error x := by
  rw [make_default_config]
  exact make_default_config_go_error pre x post _ hpre hx

/-- Witness for C9: a non-class element (an instance of `T1`) after a
valid candidate makes `make_default_config` fail, identifying it. -/
theorem make_default_config_validates_witness :
    make_default_config
        [PyObj.typ T1_pyclass, PyObj.inst T1_pyclass [], PyObj.typ T2_pyclass] =
      .error (PyObj.inst T1_pyclass []) :=
  make_default_config_validates [PyObj.typ T1_pyclass] (PyObj.inst T1_pyclass [])
    [PyObj.typ T2_pyclass] (by decide) (by decide)

/-- C2: the ordered failure cases of `cls_conf_from_config_dict`, first
applicable failure winning: (1) missing `"type"` key; (2) `"type"` set
to `None`, reporting all keys other than `"type"`; (3) named type
string without a sibling configuration block, reporting block keys;
(4) named string matching a sibling key but no candidate identifier,
reporting the candidate identifiers; (5) otherwise success with the
matched candidate and its sub-configuration block. -/
theorem cls_conf_from_config_dict_error_order (config : Entries)
    (type_iter : List PyClass) :
    (alistLookup config "type" = none →
       cls_conf_from_config_dict config type_iter = .error .missingType) ∧
    (alistLookup config "type" = some Value.null →
       cls_conf_from_config_dict config type_iter =
         .error (.unsetType ((alistKeys config).filter (fun k => k ≠ "type")))) ∧
    (∀ s, alistLookup config "type" = some (Value.str s) →
       s ∉ (alistKeys config).filter (fun k => k ≠ "type") →
       cls_conf_from_config_dict config type_iter =
         .error (.noConfigBlock (Value.str s)
           ((alistKeys config).filter (fun k => k ≠ "type")))) ∧
    (∀ s, alistLookup config "type" = some (Value.str s) →
       s ∈ (alistKeys config).filter (fun k => k ≠ "type") →
       (∀ t ∈ type_iter, type_to_key t ≠ s) →
       cls_conf_from_config_dict config type_iter =
         .error (.unknownImpl s (alistKeys (buildTypeMap type_iter)))) ∧
    (∀ s cls sub, alistLookup config "type" = some (Value.str s) →
       s ∈ (alistKeys config).filter (fun k => k ≠ "type") →
       alistLookup (buildTypeMap type_iter) s = some cls →
       alistLookup config s = some sub →
       cls_conf_from_config_dict config type_iter = .ok (cls, sub)) := by
  refine ⟨?_, ?_, ?_, ?_, ?_⟩
  · intro h
    rw [cls_conf_from_config_dict, h]
  · intro h
    rw [cls_conf_from_config_dict, h]
  · intro s h hmem
    rw [cls_conf_from_config_dict, h]
    simp only [if_neg hmem]
  · intro s h hmem hids
    have hnone : alistLookup (buildTypeMap type_iter) s = none := by
      rw [buildTypeMap_lookup, List.find?_eq_none]
      intro t ht
      simpa using hids t (List.mem_reverse.mp ht)
    rw [cls_conf_from_config_dict, h]
    simp only [if_pos hmem, hnone]
  · intro s cls sub h hmem hcls hsub
    rw [cls_conf_from_config_dict, h]
    simp only [if_pos hmem, hcls, hsub, Option.getD_some]

/-- Witness for C2: each of the five cases at a concrete standard
configuration over the candidate set `{T1}`. -/
theorem cls_conf_from_config_dict_error_order_witness :
    (cls_conf_from_config_dict
        [("tests.test_configuration.T1", Value.dict [])] [T1_pyclass] =
      .error .missingType) ∧
    (cls_conf_from_config_dict
        [("type", Value.null), ("tests.test_configuration.T1", Value.dict [])]
        [T1_pyclass] =
      .error (.unsetType ["tests.test_configuration.T1"])) ∧
    (cls_conf_from_config_dict
        [("type", Value.str "absent"),
         ("tests.test_configuration.T1", Value.dict [])] [T1_pyclass] =
      .error (.noConfigBlock (Value.str "absent")
        ["tests.test_configuration.T1"])) ∧
    (cls_conf_from_config_dict
        [("type", Value.str "NotAnImpl"), ("NotAnImpl", Value.dict [])]
        [T1_pyclass] =
      .error (.unknownImpl "NotAnImpl" ["tests.test_configuration.T1"])) ∧
    (cls_conf_from_config_dict
        [("type", Value.str "tests.test_configuration.T1"),
         ("tests.test_configuration.T1", Value.dict [("foo", Value.int 256)])]
        [T1_pyclass] =
      .ok (T1_pyclass, Value.dict [("foo", Value.int 256)])) := by
  refine ⟨?_, ?_, ?_, ?_, ?_⟩
  · exact (cls_conf_from_config_dict_error_order _ _).1 rfl
  · exact (cls_conf_from_config_dict_error_order _ _).2.1 rfl
  · exact (cls_conf_from_config_dict_error_order _ _).2.2.1 "absent" rfl
      (by decide)
  · exact (cls_conf_from_config_dict_error_order _ _).2.2.2.1 "NotAnImpl" rfl
      (by decide) (by decide)
  · exact (cls_conf_from_config_dict_error_order _ _).2.2.2.2
      "tests.test_configuration.T1" T1_pyclass
      (Value.dict [("foo", Value.int 256)]) rfl (by decide) rfl rfl

/-- C4: with `merge_default` true, the base `from_config` passes the
constructor the input configuration merged on top of
`get_default_config()` — on every key collision the input's value takes
precedence, with the spec's deep-merge recursion when both values are
nested mappings — and with `merge_default` false the constructor
receives the input unmerged.  The merge is a pure function, so neither
input mapping is mutated.  The distinct-keys hypothesis holds for every
real python dict. -/
theorem from_config_merge_spec :
    (∀ (cls : PyClass) (config_dict : Entries),
       from_config_kwargs cls config_dict true =
         merge_dict (get_default_config cls) config_dict) ∧
    (∀ (cls : PyClass) (config_dict : Entries),
       from_config_kwargs cls config_dict false = config_dict) ∧
    (∀ (dflt config_dict : Entries) (k : String),
       (alistKeys config_dict).Nodup →
       alistLookup (merge_dict dflt config_dict) k =
         merge_precedence_spec (alistLookup config_dict k)
           (alistLookup dflt k)) :=
  ⟨fun _ _ => rfl, fun _ _ => rfl,
   fun dflt config_dict k h => merge_dict_alistLookup config_dict dflt k h⟩

/-- Witness for C4: merging `{"foo": 7}` onto `T1`'s defaults lets the
input win on `"foo"` and keeps the default `"bar"`. -/
theorem from_config_merge_spec_witness :
    alistLookup (from_config_kwargs T1_pyclass [("foo", Value.int 7)] true)
        "foo" = some (Value.int 7) ∧
    alistLookup (from_config_kwargs T1_pyclass [("foo", Value.int 7)] true)
        "bar" = some (Value.str "baz") := by
  constructor
  · rw [from_config_merge_spec.1 T1_pyclass [("foo", Value.int 7)],
      from_config_merge_spec.2.2 (get_default_config T1_pyclass)
        [("foo", Value.int 7)] "foo" (by decide)]
    rfl
  · rw [from_config_merge_spec.1 T1_pyclass [("foo", Value.int 7)],
      from_config_merge_spec.2.2 (get_default_config T1_pyclass)
        [("foo", Value.int 7)] "bar" (by decide)]
    rfl

/-- C6: `to_config_dict` fails with the invalid-argument `ValueError`
exactly when the argument is a class object or an instance of a class
not subclassing `Configurable`; otherwise it returns
`cls_conf_to_config_dict` of the instance's class and its
`get_config()`, i.e. `{"type": key, key: config}`. -/
theorem to_config_dict_spec (c : PyObj) :
    (to_config_dict c = .error to_config_dict_error ↔
       ((∃ cls, c = .typ cls) ∨
        (∃ cls cfg, c = .inst cls cfg ∧ cls.isConfigurable = false))) ∧
    (∀ cls cfg, c = .inst cls cfg → cls.isConfigurable = true →
       to_config_dict c =
         .ok [("type", Value.str (type_to_key cls)),
              (type_to_key cls, Value.dict cfg)]) := by
  constructor
  · cases c with
    | typ cls => simp [to_config_dict]
    | inst cls cfg =>
        by_cases h : cls.isConfigurable = true
        · simp [to_config_dict, h]
        · simp only [Bool.not_eq_true] at h
          simp [to_config_dict, h]
  · rintro cls cfg rfl h
    simp [to_config_dict, h, cls_conf_to_config_dict, alistInsert,
      type_to_key_ne_type cls]

/-- Witness for C6: a class object fails, a non-conforming instance
fails, and a conforming `T1` instance is wrapped into the standard
dictionary. -/
theorem to_config_dict_spec_witness :
    to_config_dict (PyObj.typ T1_pyclass) = .error to_config_dict_error ∧
    to_config_dict (PyObj.inst NotConfigurable []) =
      .error to_config_dict_error ∧
    to_config_dict
        (PyObj.inst T1_pyclass [("foo", Value.int 2), ("bar", Value.str "bar")]) =
      .ok [("type", Value.str "tests.test_configuration.T1"),
           ("tests.test_configuration.T1",
            Value.dict [("foo", Value.int 2), ("bar", Value.str "bar")])] := by
  refine ⟨?_, ?_, ?_⟩
  · exact (to_config_dict_spec (PyObj.typ T1_pyclass)).1.mpr
      (Or.inl ⟨T1_pyclass, rfl⟩)
  · exact (to_config_dict_spec (PyObj.inst NotConfigurable [])).1.mpr
      (Or.inr ⟨NotConfigurable, [], rfl, rfl⟩)
  · exact (to_config_dict_spec _).2 T1_pyclass
      [("foo", Value.int 2), ("bar", Value.str "bar")] rfl rfl

/-- C7: whenever resolution succeeds, `from_config_dict` raises the
fatal `AssertionError` if the resolved class does not descend from
`Configurable`, and otherwise returns exactly
`cls.from_config(cls_conf, *args)`, the extra arguments forwarded
positionally after the configuration. -/
theorem from_config_dict_delegation (config : Entries)
    (type_iter : List PyClass) (args : List Value) (cls : PyClass) (sub : Value)
    (h : cls_conf_from_config_dict config type_iter = .ok (cls, sub)) :
    (cls.isConfigurable = false →
       (from_config_dict config type_iter args).1 =
         .error (.assertion cls.name)) ∧
    (cls.isConfigurable = true →
       (from_config_dict config type_iter args).1 = .ok ⟨cls, sub, args⟩) := by
  constructor
  · intro hc
    simp [from_config_dict, h, hc]
  · intro hc
    simp [from_config_dict, h, hc]

/-- Witness for C7: a conforming resolution delegates with the extra
argument forwarded; a non-conforming resolution trips the assertion. -/
theorem from_config_dict_delegation_witness :
    (from_config_dict
        [("type", Value.str "tests.test_configuration.T1"),
         ("tests.test_configuration.T1", Value.dict [("foo", Value.int 256)])]
        [T1_pyclass] [Value.int 9]).1 =
      .ok ⟨T1_pyclass, Value.dict [("foo", Value.int 256)], [Value.int 9]⟩ ∧
    (from_config_dict
        [("type", Value.str "tests.test_configuration.T1"),
         ("tests.test_configuration.T1", Value.dict [])]
        [T1_shadow] []).1 = .error (.assertion "T1") := by
  constructor
  · have h : cls_conf_from_config_dict
        [("type", Value.str "tests.test_configuration.T1"),
         ("tests.test_configuration.T1", Value.dict [("foo", Value.int 256)])]
        [T1_pyclass] =
        .ok (T1_pyclass, Value.dict [("foo", Value.int 256)]) := rfl
    exact (from_config_dict_delegation _ _ [Value.int 9] _ _ h).2 rfl
  · have h : cls_conf_from_config_dict
        [("type", Value.str "tests.test_configuration.T1"),
         ("tests.test_configuration.T1", Value.dict [])]
        [T1_shadow] = .ok (T1_shadow, Value.dict []) := rfl
    exact (from_config_dict_delegation _ _ [] _ _ h).1 rfl

/-- C8: the type identifier of a class is
`"<defining-module>.<class-name>"`; the per-call lookup map built by
`cls_conf_from_config_dict` binds a colliding identifier to the
candidate appearing last in iteration order; hence a successful
resolution returns the last candidate carrying the configured
identifier. -/
theorem type_key_collision_last_wins :
    (∀ t : PyClass, type_to_key t = t.module ++ "." ++ t.name) ∧
    (∀ (l : List PyClass) (k : String),
       alistLookup (buildTypeMap l) k =
         l.reverse.find? (fun t => type_to_key t == k)) ∧
    (∀ (config : Entries) (l : List PyClass) (cls : PyClass) (sub : Value)
       (s : String),
       alistLookup config "type" = some (Value.str s) →
       cls_conf_from_config_dict config l = .ok (cls, sub) →
       l.reverse.find? (fun t => type_to_key t == s) = some cls) := by
  refine ⟨fun _ => rfl, buildTypeMap_lookup, ?_⟩
  intro config l cls sub s h1 h2
  rw [← buildTypeMap_lookup]
  simp only [cls_conf_from_config_dict, h1] at h2
  by_cases hmem : s ∈ (alistKeys config).filter (fun k => k ≠ "type")
  · rw [if_pos hmem] at h2
    rcases hl : alistLookup (buildTypeMap l) s with _ | c
    · rw [hl] at h2
      cases h2
    · rw [hl] at h2
      simp only [Except.ok.injEq, Prod.mk.injEq] at h2
      rw [h2.1]
  · rw [if_neg hmem] at h2
    cases h2

/-- Witness for C8: two classes sharing the identifier
`tests.test_configuration.T1`; resolution picks the one listed last. -/
theorem type_key_collision_last_wins_witness :
    [T1_pyclass, T1_shadow].reverse.find?
        (fun t => type_to_key t == "tests.test_configuration.T1") =
      some T1_shadow :=
  type_key_collision_last_wins.2.2
    [("type", Value.str "tests.test_configuration.T1"),
     ("tests.test_configuration.T1", Value.dict [])]
    [T1_pyclass, T1_shadow] T1_shadow (Value.dict [])
    "tests.test_configuration.T1" rfl rfl

/-- C10: when `from_config_dict` fails — with any of the four
resolution errors or with the conformance assertion — its invocation
trace is empty: no candidate's `from_config` (hence no constructor) has
been called.  Validation completes before construction begins. -/
theorem from_config_dict_atomicity (config : Entries)
    (type_iter : List PyClass) (args : List Value) (e : FcdError)
    (h : (from_config_dict config type_iter args).1 = .error e) :
    (from_config_dict config type_iter args).2 = [] := by
  rcases hr : cls_conf_from_config_dict config type_iter with er | ⟨cls, sub⟩
  · simp [from_config_dict, hr]
  · by_cases hc : cls.isConfigurable = true
    · simp [from_config_dict, hr, hc] at h
    · simp [from_config_dict, hr, hc]

/-- Witness for C10: a failing call (missing `"type"` key) performs no
`from_config` invocation. -/
theorem from_config_dict_atomicity_witness :
    (from_config_dict [] [T1_pyclass] []).2 = [] :=
  from_config_dict_atomicity [] [T1_pyclass] []
    (.resolution .missingType) rfl

theorem merge_val_some_int (n : Int) (v : Value) :
    merge_val (some (Value.int n)) v = v := by
  cases v <;> rfl

theorem merge_val_some_str (s : String) (v : Value) :
    merge_val (some (Value.str s)) v = v := by
  cases v <;> rfl

theorem merge_val_some_float (q : Rat) (v : Value) :
    merge_val (some (Value.float q)) v = v := by
  cases v <;> rfl

/-- Round trip for `T1`: constructing from an exported configuration
reproduces the instance exactly. -/
theorem T1_from_config_get_config (x : T1) :
    T1.from_config x.get_config = some x := by
  obtain ⟨f, b⟩ := x
  show T1.construct
      (merge_dict [("foo", Value.int 1), ("bar", Value.str "baz")]
        [("foo", f), ("bar", b)]) = some ⟨f, b⟩
  simp [merge_dict, alistLookup, alistInsert, merge_val_some_int,
    merge_val_some_str, T1.construct]

/-- Round trip for the nested `T2`: constructing from an exported
configuration (whose `child` entry is `T1`'s bare configuration)
reproduces the instance exactly. -/
theorem T2_from_config_get_config (x : T2) :
    T2.from_config x.get_config = some x := by
  obtain ⟨⟨f, b⟩, al, be⟩ := x
  have h1 := T1_from_config_get_config ⟨f, b⟩
  simp only [T1.get_config] at h1
  simp [T2.from_config, T2.get_config, T1.get_config, h1, alistLookup,
    alistInsert, merge_dict, merge_val, merge_val_some_float,
    merge_val_some_str, T2.construct, T2.get_default_config,
    get_default_config, T2_pyclass, T1_pyclass, param_map_func]

/-- Value-level round trip for the Configurable classes of the test
module, nested case included: the configuration dictionaries produced
along the chain are equal as values.  (This deliberately ignores the
caller-visible mutation `T2.from_config` performs on its input; see the
mutation theorem below for that.) -/
theorem roundtrip_idempotence :
    (∀ x : T1, ∃ y : T1, T1.from_config x.get_config = some y ∧
       y.get_config = x.get_config ∧
       ∃ z : T1, T1.from_config y.get_config = some z ∧
         z.get_config = y.get_config) ∧
    (∀ x : T2, ∃ y : T2, T2.from_config x.get_config = some y ∧
       y.get_config = x.get_config ∧
       ∃ z : T2, T2.from_config y.get_config = some z ∧
         z.get_config = y.get_config) := by
  constructor
  · intro x
    exact ⟨x, T1_from_config_get_config x, rfl, x,
      T1_from_config_get_config x, rfl⟩
  · intro x
    exact ⟨x, T2_from_config_get_config x, rfl, x,
      T2_from_config_get_config x, rfl⟩

/-- C1: evaluation of the nested round trip at the concrete instance
`x = T2(child=T1(foo=1, bar="baz"), alpha=0.0001, beta="default")`,
with the caller-visible state modelled.  Taking
`c1 = x.get_config()` and `y = T2.from_config(c1)`, the call mutates
`c1` — its `"child"` entry afterwards holds the constructed `T1`
*instance* — while `c2 = y.get_config()` holds `T1`'s bare
configuration dictionary there, and a `T1` instance never compares
equal to a dictionary in python.  Hence `c1 == c2` fails in the nested
case, although the claim (like the spec and the assertions of
`configuration_test_helper`) requires it: `T2.from_config` omits the
shallow copy that `Configurable.from_config`'s documented override
pattern prescribes exactly to preserve this idempotence. -/
theorem roundtrip_mutation_on_nested_from_config :
    ∃ (y : T2) (c1' : Entries),
      T2.from_config_stateful
          (T2.get_config
            ⟨⟨Value.int 1, Value.str "baz"⟩, Value.float (1 / 10000),
             Value.str "default"⟩) = some (y, c1') ∧
      alistLookup c1' "child" =
        some (Value.objT1 (Value.int 1) (Value.str "baz")) ∧
      alistLookup y.get_config "child" =
        some (Value.dict [("foo", Value.int 1), ("bar", Value.str "baz")]) ∧
      Value.objT1 (Value.int 1) (Value.str "baz") ≠
        Value.dict [("foo", Value.int 1), ("bar", Value.str "baz")] := by
  refine ⟨⟨⟨Value.int 1, Value.str "baz"⟩, Value.float (1 / 10000),
    Value.str "default"⟩,
    [("child", Value.objT1 (Value.int 1) (Value.str "baz")),
     ("alpha", Value.float (1 / 10000)), ("beta", Value.str "default")],
    ?_, rfl, rfl, ?_⟩
  · rfl
  · intro h
    cases h

end SmqtkCore
